import Mathlib

/-!
Shallow embedding of the content-intelligence pipeline
(`src/backend/app`): relevance/risk scoring (`relevance_scorer.py`),
content generation orchestration (`content_generator.py`), ingestion
deduplication (`trend_ingestion.py`) and the approval endpoints
(`api/routes.py`), together with proofs checking the specification's
claims against these definitions.

Conventions: Python strings are modelled as `List Char`, timestamps and
numeric scores as `Nat` (every score value produced by the code is a
non-negative integer), SQLAlchemy rows as Lean structures, nullable
columns as `Option`, and the database session as explicit lists of rows.
-/

namespace UEContent

/-! ## Enums (`app/models/database.py`) -/

inductive RiskLevel where
  | safe | sensitive | avoid
deriving DecidableEq, Repr

inductive ContentStatus where
  | pending | approved | rejected | scheduled | published
deriving DecidableEq, Repr

inductive Platform where
  | twitter | linkedin | instagram | facebook
deriving DecidableEq, Repr

inductive ContentAngle where
  | explainer | investor | property | contrarian | data_backed
deriving DecidableEq, Repr

/-! ## Text matching primitives

`_calculate_relevance` and `_classify_risk` use
`re.search(r'\b' + re.escape(keyword) + r'\b', text, re.IGNORECASE)`
(whole-word, case-insensitive) for keyword lists, and Python's plain
`keyword in text` (case-sensitive substring) for avoid keywords.
We model both over `List Char` with ASCII case folding, which covers
every configured keyword. -/

/-- ASCII lower-casing, the effect of `re.IGNORECASE` / `str.lower()`
on the configured (pure-ASCII) keywords. -/
def lowerChar (c : Char) : Char :=
  if 65 ≤ c.toNat ∧ c.toNat ≤ 90 then Char.ofNat (c.toNat + 32) else c

/-- Case-insensitive character comparison. -/
def charIEq (a b : Char) : Bool := lowerChar a == lowerChar b

/-- Python regex `\w`: word characters (ASCII view). -/
def isWordChar (c : Char) : Bool := c.isAlphanum || c == '_'

/-- Regex `\b` at position `p` of `text`: exactly one of the character
before `p` and the character at `p` is a word character (out-of-range
counts as non-word). -/
def wordBoundaryAt (text : List Char) (p : Nat) : Bool :=
  let before := if p == 0 then false else isWordChar (text.getD (p - 1) ' ')
  let after := isWordChar (text.getD p ' ')
  before != after

/-- The keyword `kw` matches `text` at offset `i` case-insensitively. -/
def sliceIEqAt (kw text : List Char) (i : Nat) : Bool :=
  decide (i + kw.length ≤ text.length) &&
    (List.range kw.length).all (fun j => charIEq (kw.getD j ' ') (text.getD (i + j) ' '))

/-- Whether `re.search(r'\b'+kw+r'\b', text, re.IGNORECASE)` succeeds at offset `i`. -/
def wholeWordAt (kw text : List Char) (i : Nat) : Bool :=
  sliceIEqAt kw text i && wordBoundaryAt text i && wordBoundaryAt text (i + kw.length)

/-- Whether `re.search(r'\b'+kw+r'\b', text, re.IGNORECASE)` succeeds somewhere. -/
def wholeWordMatch (kw text : List Char) : Bool :=
  (List.range (text.length + 1)).any (fun i => wholeWordAt kw text i)

/-- Python `kw in text`: case-sensitive substring containment. -/
def containsSubstr (kw text : List Char) : Bool :=
  (List.range (text.length + 1)).any (fun i =>
    decide (i + kw.length ≤ text.length) &&
      (List.range kw.length).all (fun j => kw.getD j ' ' == text.getD (i + j) ' '))

/-! ## Configured keyword lists (`app/core/config.py`, class `Settings`) -/

def NIGERIAN_KEYWORDS : List (List Char) :=
  ["real estate".data, "land".data, "rent".data, "housing".data, "mortgage".data,
   "property".data, "power".data, "gas".data, "inflation".data, "naira".data,
   "policy".data, "investment".data, "lagos".data, "abuja".data, "nigeria".data,
   "cbn".data, "economy".data, "subsidy".data, "fuel".data, "electricity".data,
   "nepa".data, "landlord".data, "tenant".data]

def SENSITIVE_KEYWORDS : List (List Char) :=
  ["death".data, "died".data, "killed".data, "tragedy".data, "accident".data,
   "bomb".data, "terror".data, "kidnap".data, "murder".data, "protest".data,
   "riot".data, "clash".data]

def AVOID_KEYWORDS : List (List Char) :=
  ["explicit".data, "nsfw".data, "porn".data, "xxx".data]

def RELEVANCE_THRESHOLD : Nat := 60

/-! ## Risk classification (`relevance_scorer.py`, `_classify_risk`) -/

/-- Result triple of `_classify_risk`: (risk_level, sensitive_flags, reason). -/
structure RiskResult where
  risk_level : RiskLevel
  sensitive_flags : List (List Char)
  risk_reason : List Char
deriving DecidableEq, Repr

/-- Python `', '.join(items)`. -/
def joinComma : List (List Char) → List Char
  | [] => []
  | [x] => x
  | x :: xs => x ++ (", ".data) ++ joinComma xs

/-- Embeds `_classify_risk(text)`: the first avoid keyword contained in `text`
(substring check, early return) yields `avoid` at once; otherwise all
whole-word sensitive matches are collected and the count decides the
tier. -/
def classify_risk (text : List Char) : RiskResult :=
  match AVOID_KEYWORDS.find? (fun kw => containsSubstr kw text) with
  | some kw =>
      { risk_level := .avoid
        sensitive_flags := [kw]
        risk_reason := "Contains prohibited keyword: ".data ++ kw }
  | none =>
      let sensitive_flags := SENSITIVE_KEYWORDS.filter (fun kw => wholeWordMatch kw text)
      if sensitive_flags.length ≥ 3 then
        { risk_level := .avoid
          sensitive_flags := sensitive_flags
          risk_reason := "Multiple sensitive keywords: ".data ++ joinComma (sensitive_flags.take 3) }
      else if sensitive_flags.length ≥ 1 then
        { risk_level := .sensitive
          sensitive_flags := sensitive_flags
          risk_reason := "Contains sensitive content: ".data ++ joinComma sensitive_flags }
      else
        { risk_level := .safe
          sensitive_flags := []
          risk_reason := "No risk flags detected".data }

/-! ## Relevance scoring (`relevance_scorer.py`, `_calculate_relevance`) -/

/-- Hardcoded `priority_keywords` local of `_calculate_relevance`. -/
def priority_keywords : List (List Char) :=
  ["real estate".data, "housing".data, "property".data, "land".data, "mortgage".data,
   "rent".data, "developer".data, "construction".data, "residential".data,
   "commercial".data, "apartment".data]

/-- Hardcoded `categories` dict of `_calculate_relevance` (insertion order). -/
def relevance_categories : List (List Char × List (List Char)) :=
  [("property".data,
    ["real estate".data, "housing".data, "rent".data, "property".data, "land".data,
     "mortgage".data, "landlord".data, "tenant".data]),
   ("economy".data,
    ["inflation".data, "naira".data, "economy".data, "cbn".data, "subsidy".data, "fuel".data]),
   ("utilities".data,
    ["power".data, "gas".data, "electricity".data, "nepa".data]),
   ("location".data,
    ["lagos".data, "abuja".data, "nigeria".data])]

/-- The `matched_keywords` list built by the first loop of
`_calculate_relevance`: configured keywords kept in configuration
order when they whole-word match the text. -/
def matchedKeywords (text : List Char) : List (List Char) :=
  NIGERIAN_KEYWORDS.filter (fun kw => wholeWordMatch kw text)

/-- Score computation of `_calculate_relevance` from the matched list:
`base_score + priority_bonus + category_bonus` capped at 100, or 0 when
nothing matched (the early `return 0.0, []`). -/
def relevanceScoreOf (matched_keywords : List (List Char)) : Nat :=
  if matched_keywords = [] then 0
  else
    let base_score := min (matched_keywords.length * 10) 60
    let priority_matches := matched_keywords.filter (fun kw => priority_keywords.contains kw)
    let priority_bonus := priority_matches.length * 15
    let categories_hit :=
      (relevance_categories.filter (fun c => c.2.any (fun kw => matched_keywords.contains kw))).length
    let category_bonus := categories_hit * 5
    min (base_score + priority_bonus + category_bonus) 100

/-- Embeds `_calculate_relevance(text)`: returns `(score, matched_keywords)`. -/
def _calculate_relevance (text : List Char) : Nat × List (List Char) :=
  (relevanceScoreOf (matchedKeywords text), matchedKeywords text)

/-! ## Draft rows (`ContentDraft` in `app/models/database.py`) -/

structure ContentDraft where
  id : Nat
  scored_trend_id : Nat
  platform : Platform
  angle : ContentAngle
  content : List Char
  hook : Option (List Char)
  thread : Option (List (List Char))
  carousel_slides : Option (List (List Char))
  generated_at : Nat
  ai_model : Option (List Char)
  status : ContentStatus
  edited_content : Option (List Char)
  edited_at : Option Nat
  edited_by : Option (List Char)
  approved_by : Option (List Char)
  approved_at : Option Nat
  rejection_reason : Option (List Char)
  scheduled_for : Option Nat
  published_at : Option Nat
  external_post_id : Option (List Char)
deriving DecidableEq, Repr

/-- The `details` JSON written by the approval endpoints of `api/routes.py`. -/
inductive AuditDetails where
  | approved (platform : Platform) (angle : ContentAngle) (was_edited : Bool)
  | rejected (platform : Platform) (reason : Option (List Char))
deriving DecidableEq, Repr

/-- Rows of `AuditLog` as appended by the approval endpoints. -/
structure AuditLog where
  action : List Char
  entity_type : List Char
  entity_id : Nat
  user_email : List Char
  details : AuditDetails
deriving DecidableEq, Repr

/-! ## Approval endpoints (`app/api/routes.py`) -/

/-- Actions of `ApprovalRequest.action`, constrained by the pydantic pattern
`^(approve|reject|edit)$`. -/
inductive ApprovalAction where
  | approve | reject | edit
deriving DecidableEq, Repr

/-- Pydantic schema `ApprovalRequest`. -/
structure ApprovalRequest where
  content_id : Nat
  action : ApprovalAction
  edited_content : Option (List Char)
  rejection_reason : Option (List Char)
  approved_by : List Char
deriving DecidableEq, Repr

/-- Pydantic schema `ScheduleRequest` (`export_to` is never read by the
handler's state logic). -/
structure ScheduleRequest where
  content_id : Nat
  scheduled_for : Option Nat
  export_to : Option (List Char)
deriving DecidableEq, Repr

/-- Errors of `fastapi.HTTPException` as raised by the handlers. -/
inductive ApiError where
  | notFound (detail : List Char)
  | badRequest (detail : List Char)
deriving DecidableEq, Repr

/-- Response body `{"status": "success", "content_id", "new_status"}`. -/
structure ApproveResponse where
  content_id : Nat
  new_status : ContentStatus
deriving DecidableEq, Repr

instance {ε α : Type} [DecidableEq ε] [DecidableEq α] : DecidableEq (Except ε α) := fun a b =>
  match a, b with
  | .error e, .error f =>
      if h : e = f then .isTrue (h ▸ rfl)
      else .isFalse (fun hc => h (by cases hc; rfl))
  | .ok x, .ok y =>
      if h : x = y then .isTrue (h ▸ rfl)
      else .isFalse (fun hc => h (by cases hc; rfl))
  | .error _, .ok _ => .isFalse (fun hc => by cases hc)
  | .ok _, .error _ => .isFalse (fun hc => by cases hc)

/-- Python truthiness of an `Optional[str]`: `None` and `""` are falsy. -/
def optStrTruthy : Option (List Char) → Bool
  | none => false
  | some s => !s.isEmpty

/-- SQLAlchemy `query.filter(id == i).first()` followed by in-place
mutation of that row: the first row satisfying `p` is replaced. -/
def replaceFirst (p : ContentDraft → Bool) (d' : ContentDraft) :
    List ContentDraft → List ContentDraft
  | [] => []
  | d :: ds => if p d then d' :: ds else d :: replaceFirst p d' ds

/-- Python `draft.edited_content or draft.content` (`or` on strings:
an empty edited body falls back to the generated body). -/
def displayContent (d : ContentDraft) : List Char :=
  match d.edited_content with
  | some s => if s.isEmpty then d.content else s
  | none => d.content

/-- Embeds `POST /content/approve` (`approve_content` in `api/routes.py`).
Returns the database after the call, the audit entries appended by the
call, and the handler outcome; a raised `HTTPException` aborts before
any commit, leaving the database unchanged. -/
def approve_content (req : ApprovalRequest) (now : Nat) (db : List ContentDraft) :
    List ContentDraft × List AuditLog × Except ApiError ApproveResponse :=
  match db.find? (fun d => d.id == req.content_id) with
  | none => (db, [], .error (.notFound "Content draft not found".data))
  | some draft =>
    match req.action with
    | .approve =>
        let draft1 : ContentDraft :=
          { draft with status := .approved, approved_by := some req.approved_by,
                       approved_at := some now }
        let draft2 : ContentDraft :=
          if optStrTruthy req.edited_content then
            { draft1 with edited_content := req.edited_content, edited_at := some now,
                          edited_by := some req.approved_by }
          else draft1
        let log : AuditLog :=
          { action := "content_approved".data, entity_type := "content_draft".data,
            entity_id := draft.id, user_email := req.approved_by,
            details := .approved draft.platform draft.angle req.edited_content.isSome }
        (replaceFirst (fun d => d.id == req.content_id) draft2 db, [log],
          .ok ⟨draft.id, draft2.status⟩)
    | .reject =>
        let draft1 : ContentDraft :=
          { draft with status := .rejected, rejection_reason := req.rejection_reason }
        let log : AuditLog :=
          { action := "content_rejected".data, entity_type := "content_draft".data,
            entity_id := draft.id, user_email := req.approved_by,
            details := .rejected draft.platform req.rejection_reason }
        (replaceFirst (fun d => d.id == req.content_id) draft1 db, [log],
          .ok ⟨draft.id, draft1.status⟩)
    | .edit =>
        if !(optStrTruthy req.edited_content) then
          (db, [], .error (.badRequest "edited_content required for edit action".data))
        else
          let draft1 : ContentDraft :=
            { draft with edited_content := req.edited_content, edited_at := some now,
                         edited_by := some req.approved_by }
          (replaceFirst (fun d => d.id == req.content_id) draft1 db, [],
            .ok ⟨draft.id, draft1.status⟩)

/-- The `export_data` body returned by `schedule_content`. -/
structure ExportData where
  platform : Platform
  content : List Char
  hook : Option (List Char)
  thread : Option (List (List Char))
  carousel_slides : Option (List (List Char))
  scheduled_for : Option Nat
deriving DecidableEq, Repr

/-- Embeds `POST /content/schedule` (`schedule_content` in `api/routes.py`). -/
def schedule_content (req : ScheduleRequest) (db : List ContentDraft) :
    List ContentDraft × Except ApiError ExportData :=
  match db.find? (fun d => d.id == req.content_id) with
  | none => (db, .error (.notFound "Content draft not found".data))
  | some draft =>
    if draft.status ≠ ContentStatus.approved then
      (db, .error (.badRequest "Content must be approved before scheduling".data))
    else
      let draft1 : ContentDraft :=
        match req.scheduled_for with
        | some ts => { draft with scheduled_for := some ts, status := .scheduled }
        | none => draft
      (replaceFirst (fun d => d.id == req.content_id) draft1 db,
        .ok ⟨draft1.platform, displayContent draft1, draft1.hook, draft1.thread,
             draft1.carousel_slides, draft1.scheduled_for⟩)

/-- A fully defaulted pending draft used for concrete instances. -/
def baseDraft : ContentDraft :=
  { id := 1, scored_trend_id := 1, platform := .twitter, angle := .explainer,
    content := "c".data, hook := none, thread := none, carousel_slides := none,
    generated_at := 0, ai_model := none, status := .pending, edited_content := none,
    edited_at := none, edited_by := none, approved_by := none, approved_at := none,
    rejection_reason := none, scheduled_for := none, published_at := none,
    external_post_id := none }

/-! ## Generation orchestration (`content_generator.py`) -/

/-- Rows of `ScoredTrend` (`app/models/database.py`), the fields read by
the generator. -/
structure ScoredTrendRec where
  id : Nat
  trend_id : Nat
  relevance_score : Nat
  risk_level : RiskLevel
  virality_score : Nat
  keyword_matches : List (List Char)
  macro_impact_score : Nat
  passed_filter : Bool
deriving DecidableEq, Repr

/-- Embeds `_select_angles(scored_trend)`: five rules evaluated in source
order, each appending at most one fixed angle; `explainer` is the
default when no rule fires; the list is truncated to 3 (`angles[:3]`). -/
def _select_angles (s : ScoredTrendRec) : List ContentAngle :=
  let angles :=
    (if s.relevance_score ≥ 70 then [ContentAngle.explainer] else []) ++
    (if s.macro_impact_score ≥ 50 then [ContentAngle.investor] else []) ++
    (if ["real estate".data, "housing".data, "rent".data, "property".data,
         "land".data, "mortgage".data].any (fun kw => s.keyword_matches.contains kw)
      then [ContentAngle.property] else []) ++
    (if s.virality_score ≥ 50 then [ContentAngle.data_backed] else []) ++
    (if s.relevance_score ≥ 80 ∧ s.macro_impact_score ≥ 60
      then [ContentAngle.contrarian] else [])
  let angles := if angles = [] then [ContentAngle.explainer] else angles
  angles.take 3

/-- The structured result of `_parse_generated_content`. -/
structure ParsedContent where
  content : List Char
  hook : Option (List Char)
  thread : Option (List (List Char))
  carousel_slides : Option (List (List Char))
deriving DecidableEq, Repr

/-- Embeds `_generate_single_draft`: the external AI call together with output
parsing is abstracted as `gen` (`none` models a raised generation error,
which the source catches and turns into `return None`); on success a
pending `ContentDraft` row is built for the (platform, angle) pair. -/
def _generate_single_draft (gen : Nat → Platform → ContentAngle → Option ParsedContent)
    (s : ScoredTrendRec) (platform : Platform) (angle : ContentAngle) :
    Option ContentDraft :=
  match gen s.id platform angle with
  | none => none
  | some pc => some
      { id := 0, scored_trend_id := s.id, platform := platform, angle := angle,
        content := pc.content, hook := pc.hook, thread := pc.thread,
        carousel_slides := pc.carousel_slides, generated_at := 0,
        ai_model := some "gemini-pro".data, status := .pending,
        edited_content := none, edited_at := none, edited_by := none,
        approved_by := none, approved_at := none, rejection_reason := none,
        scheduled_for := none, published_at := none, external_post_id := none }

/-- The fixed platform list of `generate_content_for_trend`. -/
def generation_platforms : List Platform := [.twitter, .linkedin, .instagram, .facebook]

/-- Embeds `generate_content_for_trend`: nested loops over the selected angles
and the four platforms; each successful `_generate_single_draft` is
added to the session and counted, each failed pair is logged and
skipped (the per-pair `try/except` continues the loops). -/
def generate_content_for_trend (gen : Nat → Platform → ContentAngle → Option ParsedContent)
    (s : ScoredTrendRec) (db : List ContentDraft) : List ContentDraft × Nat :=
  (_select_angles s).foldl (fun acc angle =>
    generation_platforms.foldl (fun acc2 platform =>
      match _generate_single_draft gen s platform angle with
      | some draft => (acc2.1 ++ [draft], acc2.2 + 1)
      | none => acc2) acc) (db, 0)

/-- The outer-join filter `ContentDraft.id == None` of
`generate_content_for_top_trends`: the scored trend already owns some
draft row. -/
def hasDraft (db : List ContentDraft) (s : ScoredTrendRec) : Bool :=
  db.any (fun d => d.scored_trend_id == s.id)

/-- Insertion step of `ORDER BY relevance_score DESC`. -/
def insertByRelevanceDesc (s : ScoredTrendRec) :
    List ScoredTrendRec → List ScoredTrendRec
  | [] => [s]
  | t :: ts =>
      if t.relevance_score ≥ s.relevance_score then t :: insertByRelevanceDesc s ts
      else s :: t :: ts

/-- Models `ORDER BY relevance_score DESC` as an insertion sort. -/
def sortByRelevanceDesc : List ScoredTrendRec → List ScoredTrendRec
  | [] => []
  | s :: ss => insertByRelevanceDesc s (sortByRelevanceDesc ss)

/-- The selection query of `generate_content_for_top_trends`: scored
trends that passed the filter and have no draft yet, by descending
relevance, first `limit` rows. -/
def selectTopTrends (scored : List ScoredTrendRec) (limit : Nat)
    (db : List ContentDraft) : List ScoredTrendRec :=
  (sortByRelevanceDesc (scored.filter
    (fun s => s.passed_filter && !hasDraft db s))).take limit

/-- Embeds `generate_content_for_top_trends(limit)`: the query runs once
against the state at entry, then each selected trend is processed in
turn (a per-trend `try/except` merely skips a failed trend — the pure
per-trend function is total here); returns the created-draft count. -/
def generate_content_for_top_trends (gen : Nat → Platform → ContentAngle → Option ParsedContent)
    (scored : List ScoredTrendRec) (limit : Nat) (db : List ContentDraft) :
    List ContentDraft × Nat :=
  (selectTopTrends scored limit db).foldl (fun acc s =>
    let r := generate_content_for_trend gen s acc.1
    (r.1, acc.2 + r.2)) (db, 0)

/-- The drafts a single trend's generation pass creates: the (angle,
platform) pairs in loop order whose generation call succeeds. -/
def trendDrafts (gen : Nat → Platform → ContentAngle → Option ParsedContent)
    (s : ScoredTrendRec) : List ContentDraft :=
  ((_select_angles s).flatMap (fun angle =>
    generation_platforms.map (fun platform => (angle, platform)))).filterMap
    (fun ap => _generate_single_draft gen s ap.2 ap.1)

/-- The dedup key of a draft row: (score id, platform, angle). -/
def draftTriple (d : ContentDraft) : Nat × Platform × ContentAngle :=
  (d.scored_trend_id, d.platform, d.angle)

/-- A concrete generation oracle that fails for every twitter pair and
succeeds elsewhere. -/
def sampleGen : Nat → Platform → ContentAngle → Option ParsedContent :=
  fun _ p _ =>
    if p = Platform.twitter then none
    else some ⟨"body".data, none, none, none⟩

/-- Two concrete scored trends, one eligible and one filtered out. -/
def sampleScored : List ScoredTrendRec :=
  [{ id := 1, trend_id := 1, relevance_score := 90, risk_level := .safe,
     virality_score := 0, keyword_matches := ["housing".data],
     macro_impact_score := 60, passed_filter := true },
   { id := 2, trend_id := 2, relevance_score := 40, risk_level := .avoid,
     virality_score := 0, keyword_matches := [], macro_impact_score := 0,
     passed_filter := false }]

/-! ## Ingestion deduplication (`trend_ingestion.py`, `ingest_google_news`)

`Trend.source_id` (unique column) is built as
`f"google_news_{entry.get('id', entry.link)}"`, i.e. the source tag and
the externally issued identifier together form the dedup key. -/

/-- Rows of `Trend` (`app/models/database.py`). -/
structure Trend where
  id : Nat
  source : List Char
  source_id : List Char
  title : Option (List Char)
  text : List Char
  url : Option (List Char)
  author : Option (List Char)
  timestamp : Nat
  likes : Nat
  shares : Nat
  comments : Nat
  views : Nat
  processed : Bool
deriving DecidableEq, Repr

/-- A parsed RSS entry, the fields `ingest_google_news` reads. -/
structure FeedEntry where
  entry_id : Option (List Char)
  link : List Char
  title : List Char
  summary : Option (List Char)
  source_title : Option (List Char)
  published_parsed : Option Nat
deriving DecidableEq, Repr

/-- What happened to one entry of the feed loop: a fresh row was added,
or the entry was skipped as a duplicate (`if existing: continue`), or
skipped as older than the cutoff. No error outcome exists. -/
inductive IngestOutcome where
  | added | skippedDuplicate | skippedOld
deriving DecidableEq, Repr

/-- Computes `source_id = f"google_news_" + entry id or link` of the source. -/
def googleNewsSourceId (e : FeedEntry) : List Char :=
  "google_news_".data ++ e.entry_id.getD e.link

/-- The per-entry body of the `ingest_google_news` loop: drop entries
older than the cutoff, skip entries whose `source_id` already has a
persisted row, otherwise persist a new `Trend` with `processed=false`
and engagement defaults. -/
def processEntry (now cutoff : Nat) (db : List Trend) (e : FeedEntry) :
    List Trend × IngestOutcome :=
  let published := e.published_parsed.getD now
  if published < cutoff then (db, .skippedOld)
  else
    let source_id := googleNewsSourceId e
    if db.any (fun t => t.source_id == source_id) then (db, .skippedDuplicate)
    else
      (db ++ [{ id := 0, source := "google_news".data, source_id := source_id,
                title := some e.title, text := e.summary.getD e.title,
                url := some e.link,
                author := some (e.source_title.getD "Unknown".data),
                timestamp := published, likes := 0, shares := 0, comments := 0,
                views := 0, processed := false }], .added)

/-- The feed loop over a list of entries, counting only added rows
(`new_count += 1` happens only on the add path). -/
def ingestEntries (now cutoff : Nat) (db : List Trend) (entries : List FeedEntry) :
    List Trend × Nat :=
  entries.foldl (fun acc e =>
    let r := processEntry now cutoff acc.1 e
    (r.1, acc.2 + (if r.2 = .added then 1 else 0))) (db, 0)

/-- A persisted google-news row for the witness. -/
def sampleTrend : Trend :=
  { id := 7, source := "google_news".data, source_id := "google_news_abc".data,
    title := some "t".data, text := "t".data, url := some "u".data,
    author := some "Unknown".data, timestamp := 80, likes := 0, shares := 0,
    comments := 0, views := 0, processed := true }

/-- The same record arriving again from the feed. -/
def sampleEntry : FeedEntry :=
  { entry_id := some "abc".data, link := "u".data, title := "t".data,
    summary := none, source_title := none, published_parsed := some 80 }

/-! ## Concrete evaluations of the embedded scorer -/

example : (classify_risk "nsfw policy housing".data).risk_level = .avoid := by decide

example : (classify_risk "death toll rises".data).risk_level = .sensitive := by decide

example : (classify_risk "housing in lagos".data).risk_level = .safe := by decide

example : wholeWordMatch "rent".data "rents are up".data = false := by decide

example : wholeWordMatch "real estate".data "Real Estate boom".data = true := by decide

example : (_calculate_relevance "housing policy in lagos today".data).1 = 55 := by decide

example : (_calculate_relevance "nothing here".data) = (0, []) := by decide

/-! ## Helper lemmas -/

/-- Filtering one list with a pointwise weaker predicate yields a sublist. -/
theorem filter_sublist_of_imp {α : Type} {p q : α → Bool} (l : List α)
    (h : ∀ a ∈ l, p a = true → q a = true) : List.Sublist (l.filter p) (l.filter q) := by
  induction l with
  | nil => simp
  | cons a l ih =>
    have ih' := ih (fun x hx hpx => h x (List.mem_cons_of_mem _ hx) hpx)
    simp only [List.filter_cons]
    by_cases hp : p a = true
    · rw [if_pos hp, if_pos (h a (List.mem_cons_self a l) hp)]
      exact ih'.cons₂ a
    · rw [if_neg hp]
      by_cases hq : q a = true
      · rw [if_pos hq]; exact ih'.cons a
      · rw [if_neg hq]; exact ih'

/-- The relevance score formula is monotone under growing the matched list. -/
theorem relevanceScoreOf_mono {M M' : List (List Char)} (hsub : List.Sublist M M') :
    relevanceScoreOf M ≤ relevanceScoreOf M' := by
  by_cases hM : M = []
  · rw [relevanceScoreOf, if_pos hM]; exact Nat.zero_le _
  · have hM' : M' ≠ [] := fun h => hM (List.sublist_nil.mp (h ▸ hsub))
    have h1 : M.length ≤ M'.length := hsub.length_le
    have h2 : (M.filter fun kw => priority_keywords.contains kw).length ≤
        (M'.filter fun kw => priority_keywords.contains kw).length :=
      (hsub.filter _).length_le
    have h3 : (relevance_categories.filter fun c =>
          c.2.any fun kw => M.contains kw).length ≤
        (relevance_categories.filter fun c =>
          c.2.any fun kw => M'.contains kw).length := by
      refine (filter_sublist_of_imp _ ?_).length_le
      intro c _ hc
      simp only [List.any_eq_true] at hc ⊢
      obtain ⟨kw, hkwmem, hkwM⟩ := hc
      refine ⟨kw, hkwmem, ?_⟩
      simp only [List.contains, List.elem_eq_mem, decide_eq_true_eq] at hkwM ⊢
      exact hsub.subset hkwM
    rw [relevanceScoreOf, relevanceScoreOf, if_neg hM, if_neg hM']
    simp only []
    omega

/-! ## Claim theorems for the scorer -/

/-- C3: for every text, the relevance score equals
min(base + priority bonus + category bonus, 100) with
base = min(10·matches, 60), priority bonus = 15·(priority matches),
category bonus = 5·(distinct categories hit); zero matches yield
exactly (0, []). -/
theorem relevance_score_formula (text : List Char) :
    (_calculate_relevance text).2 = matchedKeywords text ∧
    (matchedKeywords text = [] → _calculate_relevance text = (0, [])) ∧
    (matchedKeywords text ≠ [] →
      (_calculate_relevance text).1 =
        min (min (10 * (matchedKeywords text).length) 60
          + 15 * ((matchedKeywords text).filter fun kw =>
              priority_keywords.contains kw).length
          + 5 * (relevance_categories.filter fun c =>
              c.2.any fun kw => (matchedKeywords text).contains kw).length) 100) := by
  refine ⟨rfl, ?_, ?_⟩
  · intro h
    simp only [_calculate_relevance, relevanceScoreOf, h, if_pos]
  · intro h
    show relevanceScoreOf (matchedKeywords text) = _
    rw [relevanceScoreOf, if_neg h]
    simp only []
    omega

/-- Witness for C3 at the concrete text "housing policy in lagos today". -/
theorem relevance_score_formula_witness :
    matchedKeywords "housing policy in lagos today".data ≠ [] ∧
    (_calculate_relevance "housing policy in lagos today".data).1 =
      min (min (10 * (matchedKeywords "housing policy in lagos today".data).length) 60
        + 15 * ((matchedKeywords "housing policy in lagos today".data).filter fun kw =>
            priority_keywords.contains kw).length
        + 5 * (relevance_categories.filter fun c =>
            c.2.any fun kw =>
              (matchedKeywords "housing policy in lagos today".data).contains kw).length) 100 :=
  ⟨by decide, (relevance_score_formula "housing policy in lagos today".data).2.2 (by decide)⟩

/-- C9: extending a text so that one extra configured priority keyword
becomes a whole-word match (all other keywords unchanged) never
decreases the relevance score. -/
theorem relevance_monotone_extra_priority_match (t t' k : List Char)
    (hk : priority_keywords.contains k = true)
    (hnew : wholeWordMatch k t = false)
    (h : ∀ kw ∈ NIGERIAN_KEYWORDS, wholeWordMatch kw t' = (wholeWordMatch kw t || kw == k)) :
    (_calculate_relevance t).1 ≤ (_calculate_relevance t').1 := by
  have hsub : List.Sublist (matchedKeywords t) (matchedKeywords t') := by
    refine filter_sublist_of_imp _ ?_
    intro kw hkw hmatch
    rw [h kw hkw, hmatch, Bool.true_or]
  exact relevanceScoreOf_mono hsub

/-- Witness for C9: t = "gas", t' = "gas rent", k = "rent". -/
theorem relevance_monotone_extra_priority_match_witness :
    priority_keywords.contains "rent".data = true ∧
    wholeWordMatch "rent".data "gas".data = false ∧
    (∀ kw ∈ NIGERIAN_KEYWORDS,
      wholeWordMatch kw "gas rent".data = (wholeWordMatch kw "gas".data || kw == "rent".data)) ∧
    (_calculate_relevance "gas".data).1 ≤ (_calculate_relevance "gas rent".data).1 :=
  ⟨by decide, by decide, by decide,
    relevance_monotone_extra_priority_match "gas".data "gas rent".data "rent".data
      (by decide) (by decide) (by decide)⟩

/-- C2: any avoid keyword occurring in the text yields tier `avoid` at
once, with only the first (in configuration order) matching keyword
recorded and every other signal ignored; otherwise the whole-word
sensitive matches are collected and ≥3 of them give `avoid` (rationale
listing the first 3), 1–2 give `sensitive` (rationale listing all), and
none gives `safe` with an empty flag list. -/
theorem classify_risk_spec (text : List Char) :
    ((∃ kw ∈ AVOID_KEYWORDS, containsSubstr kw text = true) →
      ∃ l₁ kw l₂, AVOID_KEYWORDS = l₁ ++ kw :: l₂ ∧ containsSubstr kw text = true ∧
        (∀ kw' ∈ l₁, containsSubstr kw' text = false) ∧
        classify_risk text =
          ⟨.avoid, [kw], "Contains prohibited keyword: ".data ++ kw⟩) ∧
    ((∀ kw ∈ AVOID_KEYWORDS, containsSubstr kw text = false) →
      (classify_risk text).sensitive_flags =
        SENSITIVE_KEYWORDS.filter (fun kw => wholeWordMatch kw text) ∧
      (3 ≤ (SENSITIVE_KEYWORDS.filter (fun kw => wholeWordMatch kw text)).length →
        (classify_risk text).risk_level = .avoid ∧
        (classify_risk text).risk_reason = "Multiple sensitive keywords: ".data ++
          joinComma ((SENSITIVE_KEYWORDS.filter (fun kw => wholeWordMatch kw text)).take 3)) ∧
      (1 ≤ (SENSITIVE_KEYWORDS.filter (fun kw => wholeWordMatch kw text)).length →
        (SENSITIVE_KEYWORDS.filter (fun kw => wholeWordMatch kw text)).length ≤ 2 →
        (classify_risk text).risk_level = .sensitive ∧
        (classify_risk text).risk_reason = "Contains sensitive content: ".data ++
          joinComma (SENSITIVE_KEYWORDS.filter (fun kw => wholeWordMatch kw text))) ∧
      ((SENSITIVE_KEYWORDS.filter (fun kw => wholeWordMatch kw text)) = [] →
        classify_risk text = ⟨.safe, [], "No risk flags detected".data⟩)) := by
  constructor
  · rintro ⟨kw0, hkw0, hc0⟩
    have hsome : (AVOID_KEYWORDS.find? (fun kw => containsSubstr kw text)).isSome := by
      rw [List.find?_isSome]; exact ⟨kw0, hkw0, hc0⟩
    obtain ⟨kw, hfind⟩ := Option.isSome_iff_exists.mp hsome
    obtain ⟨hp, as, bs, heq, hprev⟩ := List.find?_eq_some.mp hfind
    refine ⟨as, kw, bs, heq, hp, fun kw' h' => by simpa using hprev kw' h', ?_⟩
    simp only [classify_risk]
    rw [hfind]
  · intro hnone
    have hfind : AVOID_KEYWORDS.find? (fun kw => containsSubstr kw text) = none :=
      List.find?_eq_none.mpr (fun x hx => by simp [hnone x hx])
    have hck : classify_risk text =
        (let sensitive_flags := SENSITIVE_KEYWORDS.filter (fun kw => wholeWordMatch kw text)
        if sensitive_flags.length ≥ 3 then
          { risk_level := .avoid
            sensitive_flags := sensitive_flags
            risk_reason := "Multiple sensitive keywords: ".data ++
              joinComma (sensitive_flags.take 3) }
        else if sensitive_flags.length ≥ 1 then
          { risk_level := .sensitive
            sensitive_flags := sensitive_flags
            risk_reason := "Contains sensitive content: ".data ++ joinComma sensitive_flags }
        else
          { risk_level := .safe
            sensitive_flags := []
            risk_reason := "No risk flags detected".data }) := by
      simp only [classify_risk]
      rw [hfind]
    rw [hck]
    simp only []
    by_cases h3 : (SENSITIVE_KEYWORDS.filter (fun kw => wholeWordMatch kw text)).length ≥ 3
    · rw [if_pos h3]
      refine ⟨rfl, fun _ => ⟨rfl, rfl⟩, fun _ h2 => absurd h3 (by omega), fun h0 => ?_⟩
      rw [h0] at h3; simp at h3
    · rw [if_neg h3]
      by_cases h1 : (SENSITIVE_KEYWORDS.filter (fun kw => wholeWordMatch kw text)).length ≥ 1
      · rw [if_pos h1]
        refine ⟨rfl, fun h => absurd h (by omega), fun _ _ => ⟨rfl, rfl⟩, fun h0 => ?_⟩
        rw [h0] at h1; simp at h1
      · rw [if_neg h1]
        have h0 : SENSITIVE_KEYWORDS.filter (fun kw => wholeWordMatch kw text) = [] := by
          have := Nat.lt_one_iff.mp (Nat.lt_of_not_le h1)
          exact List.length_eq_zero.mp this
        exact ⟨h0.symm, fun h => absurd h (by omega), fun h _ => absurd h h1, fun _ => rfl⟩

/-- Witness for C2: the spec's own example text "nsfw policy housing"
classifies as avoid through the avoid-keyword short-circuit. -/
theorem classify_risk_spec_witness :
    (classify_risk "nsfw policy housing".data).risk_level = .avoid := by
  obtain ⟨l₁, kw, l₂, hdec, hc, hfirst, heq⟩ :=
    (classify_risk_spec "nsfw policy housing".data).1 ⟨"nsfw".data, by decide, by decide⟩
  rw [heq]

/-- Replacing the row that `find?` located by an equal row is the
identity on the database. -/
theorem replaceFirst_self {p : ContentDraft → Bool} {d : ContentDraft} :
    ∀ {db : List ContentDraft}, db.find? p = some d → replaceFirst p d db = db := by
  intro db
  induction db with
  | nil => intro h; simp at h
  | cons x xs ih =>
    intro h
    by_cases hx : p x
    · rw [List.find?_cons_of_pos _ hx] at h
      injection h with h
      rw [replaceFirst, if_pos hx, h]
    · rw [List.find?_cons_of_neg _ hx] at h
      rw [replaceFirst, if_neg hx, ih h]

/-- C5 counterexample: an approve action applied to a draft whose
current status is `rejected` is not refused — the handler performs no
state check and silently coerces the status to `approved`. -/
theorem approve_from_rejected_not_refused :
    approve_content
        { content_id := 1, action := .approve, edited_content := none,
          rejection_reason := none, approved_by := "alice@example.com".data }
        5 [{ baseDraft with status := .rejected }] =
      ([{ baseDraft with
            status := .approved,
            approved_by := some "alice@example.com".data, approved_at := some 5 }],
       [{ action := "content_approved".data, entity_type := "content_draft".data,
          entity_id := 1, user_email := "alice@example.com".data,
          details := .approved .twitter .explainer false }],
       .ok ⟨1, .approved⟩) := by decide

/-- C5 amended: an approve action on any existing draft succeeds and
sets the status to `approved` whatever the prior status was; no
state-transition error exists on this path. -/
theorem approve_sets_approved_from_any_status (req : ApprovalRequest) (now : Nat)
    (db : List ContentDraft) (draft : ContentDraft)
    (hfind : db.find? (fun d => d.id == req.content_id) = some draft)
    (haction : req.action = .approve) :
    ∃ d' log, approve_content req now db =
        (replaceFirst (fun d => d.id == req.content_id) d' db, [log],
          .ok ⟨draft.id, ContentStatus.approved⟩) ∧
      d'.status = .approved := by
  simp only [approve_content, hfind, haction]
  by_cases he : optStrTruthy req.edited_content
  · rw [if_pos he]
    exact ⟨_, _, rfl, rfl⟩
  · rw [if_neg he]
    exact ⟨_, _, rfl, rfl⟩

/-- Witness for the amended C5 at a `published` draft. -/
theorem approve_sets_approved_from_any_status_witness :
    ∃ d' log, approve_content
        { content_id := 1, action := .approve, edited_content := none,
          rejection_reason := none, approved_by := "eve@example.com".data }
        3 [{ baseDraft with status := .published }] =
      (replaceFirst (fun d => d.id == (1 : Nat)) d'
         [{ baseDraft with status := .published }], [log],
       .ok ⟨1, ContentStatus.approved⟩) ∧ d'.status = .approved :=
  approve_sets_approved_from_any_status
    { content_id := 1, action := .approve, edited_content := none,
      rejection_reason := none, approved_by := "eve@example.com".data }
    3 [{ baseDraft with status := .published }] { baseDraft with status := .published }
    (by decide) rfl

/-- C6 counterexample: a timestamp in the past (5, against a draft
generated at 100 — the handler consults no clock at all) is accepted
and the draft still moves to `scheduled`. -/
theorem schedule_accepts_past_timestamp :
    (5 : Nat) <
      ({ baseDraft with status := .approved, generated_at := 100 } : ContentDraft).generated_at ∧
    schedule_content ⟨1, some 5, none⟩
        [{ baseDraft with status := .approved, generated_at := 100 }] =
      ([{ baseDraft with status := .scheduled, generated_at := 100, scheduled_for := some 5 }],
       .ok ⟨.twitter, "c".data, none, none, none, some 5⟩) := by decide

/-- C6 amended: scheduling succeeds exactly when the draft's status is
`approved` and a timestamp is supplied — the timestamp is accepted
without any future-ness check; from any other status the handler fails
with the 400 "Content must be approved before scheduling" error and the
database is unchanged; with no timestamp it succeeds without a status
change. -/
theorem schedule_requires_approved_status (req : ScheduleRequest)
    (db : List ContentDraft) (draft : ContentDraft)
    (hfind : db.find? (fun d => d.id == req.content_id) = some draft) :
    (draft.status ≠ .approved →
      schedule_content req db =
        (db, .error (.badRequest "Content must be approved before scheduling".data))) ∧
    (draft.status = .approved → ∀ ts, req.scheduled_for = some ts →
      ∃ ed, schedule_content req db =
        (replaceFirst (fun d => d.id == req.content_id)
          { draft with scheduled_for := some ts, status := .scheduled } db, .ok ed)) ∧
    (draft.status = .approved → req.scheduled_for = none →
      ∃ ed, schedule_content req db = (db, .ok ed)) := by
  refine ⟨?_, ?_, ?_⟩
  · intro hs
    simp only [schedule_content, hfind]
    rw [if_pos (by simpa using hs)]
  · intro hs ts hts
    simp only [schedule_content, hfind, hts]
    rw [if_neg (by simp [hs])]
    exact ⟨_, rfl⟩
  · intro hs hts
    simp only [schedule_content, hfind, hts]
    rw [if_neg (by simp [hs])]
    exact ⟨_, by rw [replaceFirst_self hfind]⟩

/-- Witness for the amended C6: scheduling a rejected draft fails and
leaves the database unchanged. -/
theorem schedule_requires_approved_status_witness :
    schedule_content ⟨1, some 99, none⟩ [{ baseDraft with status := .rejected }] =
      ([{ baseDraft with status := .rejected }],
       .error (.badRequest "Content must be approved before scheduling".data)) :=
  (schedule_requires_approved_status ⟨1, some 99, none⟩
    [{ baseDraft with status := .rejected }] { baseDraft with status := .rejected }
    (by decide)).1 (by decide)

/-- C7 counterexample: a reject request carrying no reason is not
refused — the draft is moved to `rejected` with an absent reason and an
audit entry is still emitted. -/
theorem reject_without_reason_succeeds :
    approve_content
        { content_id := 1, action := .reject, edited_content := none,
          rejection_reason := none, approved_by := "bob@example.com".data }
        7 [baseDraft] =
      ([{ baseDraft with status := .rejected, rejection_reason := none }],
       [{ action := "content_rejected".data, entity_type := "content_draft".data,
          entity_id := 1, user_email := "bob@example.com".data,
          details := .rejected .twitter none }],
       .ok ⟨1, .rejected⟩) := by decide

/-- C7 amended: a reject request always succeeds, sets status
`rejected`, records whatever reason (possibly absent) was supplied and
emits an audit entry; no validation error is raised for a missing
reason. -/
theorem reject_records_optional_reason (req : ApprovalRequest) (now : Nat)
    (db : List ContentDraft) (draft : ContentDraft)
    (hfind : db.find? (fun d => d.id == req.content_id) = some draft)
    (haction : req.action = .reject) :
    approve_content req now db =
      (replaceFirst (fun d => d.id == req.content_id)
         { draft with status := .rejected, rejection_reason := req.rejection_reason } db,
       [{ action := "content_rejected".data, entity_type := "content_draft".data,
          entity_id := draft.id, user_email := req.approved_by,
          details := .rejected draft.platform req.rejection_reason }],
       .ok ⟨draft.id, .rejected⟩) := by
  simp only [approve_content, hfind, haction]

/-- Witness for the amended C7 at a reject request that does carry a
reason. -/
theorem reject_records_optional_reason_witness :
    approve_content
        { content_id := 2, action := .reject, edited_content := none,
          rejection_reason := some "off-brand".data, approved_by := "bob@example.com".data }
        7 [{ baseDraft with id := 2 }] =
      ([{ baseDraft with
            id := 2, status := .rejected,
            rejection_reason := some "off-brand".data }],
       [{ action := "content_rejected".data, entity_type := "content_draft".data,
          entity_id := 2, user_email := "bob@example.com".data,
          details := .rejected .twitter (some "off-brand".data) }],
       .ok ⟨2, .rejected⟩) :=
  (reject_records_optional_reason
      { content_id := 2, action := .reject, edited_content := none,
        rejection_reason := some "off-brand".data, approved_by := "bob@example.com".data }
      7 [{ baseDraft with id := 2 }] { baseDraft with id := 2 }
      (by decide) rfl).trans (by decide)

/-- C10: approving with `edited_content = some ""` drops the edit (the
Python truthiness test rejects the empty string) so the edit fields
stay untouched and only status/approved_by/approved_at change — yet the
audit entry records `was_edited = true` because that flag tests
`is not None` rather than non-emptiness. -/
theorem approve_empty_edit_dropped_but_audited (req : ApprovalRequest) (now : Nat)
    (db : List ContentDraft) (draft : ContentDraft)
    (hfind : db.find? (fun d => d.id == req.content_id) = some draft)
    (haction : req.action = .approve)
    (hedit : req.edited_content = some []) :
    approve_content req now db =
      (replaceFirst (fun d => d.id == req.content_id)
         { draft with status := .approved, approved_by := some req.approved_by,
                      approved_at := some now } db,
       [{ action := "content_approved".data, entity_type := "content_draft".data,
          entity_id := draft.id, user_email := req.approved_by,
          details := .approved draft.platform draft.angle true }],
       .ok ⟨draft.id, .approved⟩) := by
  simp only [approve_content, hfind, haction, hedit]
  simp [optStrTruthy, List.isEmpty]

/-- Witness for C10 on a concrete pending draft with an initially
absent edit. -/
theorem approve_empty_edit_dropped_but_audited_witness :
    approve_content
        { content_id := 1, action := .approve, edited_content := some [],
          rejection_reason := none, approved_by := "carol@example.com".data }
        9 [baseDraft] =
      ([{ baseDraft with
            status := .approved,
            approved_by := some "carol@example.com".data, approved_at := some 9 }],
       [{ action := "content_approved".data, entity_type := "content_draft".data,
          entity_id := 1, user_email := "carol@example.com".data,
          details := .approved .twitter .explainer true }],
       .ok ⟨1, .approved⟩) :=
  (approve_empty_edit_dropped_but_audited
      { content_id := 1, action := .approve, edited_content := some [],
        rejection_reason := none, approved_by := "carol@example.com".data }
      9 [baseDraft] baseDraft (by decide) rfl rfl).trans (by decide)

/-- The platform loop appends exactly the successful pairs of that
angle and adds their number to the running count. -/
theorem platform_foldl_eq (gen : Nat → Platform → ContentAngle → Option ParsedContent)
    (s : ScoredTrendRec) (angle : ContentAngle) :
    ∀ (ps : List Platform) (db : List ContentDraft) (c : Nat),
      ps.foldl (fun acc2 platform =>
        match _generate_single_draft gen s platform angle with
        | some draft => (acc2.1 ++ [draft], acc2.2 + 1)
        | none => acc2) (db, c) =
      (db ++ ps.filterMap (fun p => _generate_single_draft gen s p angle),
       c + (ps.filterMap (fun p => _generate_single_draft gen s p angle)).length) := by
  intro ps
  induction ps with
  | nil => intro db c; simp
  | cons p ps ih =>
    intro db c
    rw [List.foldl_cons, List.filterMap_cons]
    cases hg : _generate_single_draft gen s p angle with
    | none => rw [ih]
    | some d =>
      rw [ih]
      refine Prod.ext ?_ ?_
      · simp
      · simp only [List.length_cons]
        omega

/-- The angle loop appends exactly the successful (angle, platform)
pairs in loop order, counting them. -/
theorem angle_foldl_eq (gen : Nat → Platform → ContentAngle → Option ParsedContent)
    (s : ScoredTrendRec) :
    ∀ (as : List ContentAngle) (db : List ContentDraft) (c : Nat),
      as.foldl (fun acc angle =>
        generation_platforms.foldl (fun acc2 platform =>
          match _generate_single_draft gen s platform angle with
          | some draft => (acc2.1 ++ [draft], acc2.2 + 1)
          | none => acc2) acc) (db, c) =
      (db ++ (as.flatMap (fun angle =>
          generation_platforms.map (fun platform => (angle, platform)))).filterMap
          (fun ap => _generate_single_draft gen s ap.2 ap.1),
       c + ((as.flatMap (fun angle =>
          generation_platforms.map (fun platform => (angle, platform)))).filterMap
          (fun ap => _generate_single_draft gen s ap.2 ap.1)).length) := by
  intro as
  induction as with
  | nil => intro db c; simp
  | cons a as ih =>
    intro db c
    rw [List.foldl_cons, platform_foldl_eq, ih, List.flatMap_cons, List.filterMap_append,
      List.filterMap_map]
    have hcomp : List.filterMap ((fun ap => _generate_single_draft gen s ap.2 ap.1) ∘
        (fun platform => (a, platform))) generation_platforms =
        List.filterMap (fun p => _generate_single_draft gen s p a) generation_platforms := rfl
    rw [hcomp, List.length_append, ← List.append_assoc, Nat.add_assoc]

/-- One trend's generation pass: final state and count in closed form. -/
theorem generate_content_for_trend_eq (gen : Nat → Platform → ContentAngle → Option ParsedContent)
    (s : ScoredTrendRec) (db : List ContentDraft) :
    generate_content_for_trend gen s db =
      (db ++ trendDrafts gen s, (trendDrafts gen s).length) := by
  rw [generate_content_for_trend, trendDrafts, angle_foldl_eq]
  refine Prod.ext rfl ?_
  simp

/-- C8: a failed generation call for one (angle, platform) pair is
skipped without aborting anything else — the per-trend pass appends a
draft for exactly the successful pairs, and the batch run processes
every selected trend, ending with all their successful drafts appended
and the total count returned (the batch function is total: it returns a
count, never an error). -/
theorem generation_partial_failure_isolated
    (gen : Nat → Platform → ContentAngle → Option ParsedContent)
    (scored : List ScoredTrendRec) (limit : Nat) (db : List ContentDraft) :
    (∀ (s : ScoredTrendRec) (dbx : List ContentDraft),
      generate_content_for_trend gen s dbx =
        (dbx ++ trendDrafts gen s, (trendDrafts gen s).length)) ∧
    generate_content_for_top_trends gen scored limit db =
      (db ++ (selectTopTrends scored limit db).flatMap (fun s => trendDrafts gen s),
       ((selectTopTrends scored limit db).map (fun s => (trendDrafts gen s).length)).sum) := by
  refine ⟨fun s dbx => generate_content_for_trend_eq gen s dbx, ?_⟩
  rw [generate_content_for_top_trends]
  have aux : ∀ (sel : List ScoredTrendRec) (db0 : List ContentDraft) (c : Nat),
      sel.foldl (fun acc s =>
        let r := generate_content_for_trend gen s acc.1
        (r.1, acc.2 + r.2)) (db0, c) =
      (db0 ++ sel.flatMap (fun s => trendDrafts gen s),
       c + (sel.map (fun s => (trendDrafts gen s).length)).sum) := by
    intro sel
    induction sel with
    | nil => intro db0 c; simp
    | cons s sel ih =>
      intro db0 c
      have hinit : (let r := generate_content_for_trend gen s (db0, c).1
          (r.1, (db0, c).2 + r.2)) =
          (db0 ++ trendDrafts gen s, c + (trendDrafts gen s).length) := by
        simp only [generate_content_for_trend_eq]
      rw [List.foldl_cons, hinit, ih, List.flatMap_cons, List.map_cons, List.sum_cons,
        ← List.append_assoc, ← Nat.add_assoc]
  simpa using aux (selectTopTrends scored limit db) db 0

/-- The rule engine appends five pairwise distinct angle constants, so
the selected angle list never repeats an angle. -/
theorem select_angles_nodup (s : ScoredTrendRec) : (_select_angles s).Nodup := by
  rw [_select_angles]
  by_cases h1 : s.relevance_score ≥ 70 <;>
  by_cases h2 : s.macro_impact_score ≥ 50 <;>
  by_cases h3 : (["real estate".data, "housing".data, "rent".data, "property".data,
      "land".data, "mortgage".data].any (fun kw => s.keyword_matches.contains kw)) = true <;>
  by_cases h4 : s.virality_score ≥ 50 <;>
  by_cases h5 : s.relevance_score ≥ 80 ∧ s.macro_impact_score ≥ 60 <;>
  simp only [h1, h2, h3, h4, h5, if_true, if_false, Bool.not_eq_true, if_pos, if_neg,
    not_false_eq_true, not_true_eq_false] <;>
  decide

/-- The (angle, platform) pair grid of one trend has no repeats. -/
theorem pairs_nodup (angles : List ContentAngle) (h : angles.Nodup) :
    (angles.flatMap (fun a => generation_platforms.map (fun p => (a, p)))).Nodup := by
  induction angles with
  | nil => simp
  | cons a as ih =>
    rw [List.flatMap_cons, List.nodup_append]
    obtain ⟨hnotmem, hnd⟩ := List.nodup_cons.mp h
    refine ⟨?_, ih hnd, ?_⟩
    · refine List.Nodup.map ?_ (by decide)
      intro p q hpq
      exact congrArg Prod.snd hpq
    · intro x hx1 hx2
      obtain ⟨p, _, hxp⟩ := List.mem_map.mp hx1
      obtain ⟨a', ha', hxin⟩ := List.mem_flatMap.mp hx2
      obtain ⟨p', _, hxp'⟩ := List.mem_map.mp hxin
      apply hnotmem
      have : a = a' := by
        have h1 : x.1 = a := by rw [← hxp]
        have h2 : x.1 = a' := by rw [← hxp']
        rw [← h1, h2]
      rw [this]; exact ha'

/-- Mapping the created drafts to their dedup triples equals mapping
the successful pairs to (score id, platform, angle). -/
theorem trendDrafts_map_triple (gen : Nat → Platform → ContentAngle → Option ParsedContent)
    (s : ScoredTrendRec) :
    ∀ (l : List (ContentAngle × Platform)),
      (l.filterMap (fun ap => _generate_single_draft gen s ap.2 ap.1)).map draftTriple =
      (l.filter (fun ap => (gen s.id ap.2 ap.1).isSome)).map
        (fun ap => (s.id, ap.2, ap.1)) := by
  intro l
  induction l with
  | nil => rfl
  | cons ap l ih =>
    rw [List.filterMap_cons, List.filter_cons]
    cases hg : gen s.id ap.2 ap.1 with
    | none =>
      have hnone : _generate_single_draft gen s ap.2 ap.1 = none := by
        rw [_generate_single_draft, hg]
      rw [hnone, if_neg (by simp)]
      exact ih
    | some pc =>
      have hsome : _generate_single_draft gen s ap.2 ap.1 = some
          { id := 0, scored_trend_id := s.id, platform := ap.2, angle := ap.1,
            content := pc.content, hook := pc.hook, thread := pc.thread,
            carousel_slides := pc.carousel_slides, generated_at := 0,
            ai_model := some "gemini-pro".data, status := .pending,
            edited_content := none, edited_at := none, edited_by := none,
            approved_by := none, approved_at := none, rejection_reason := none,
            scheduled_for := none, published_at := none, external_post_id := none } := by
        rw [_generate_single_draft, hg]
      rw [hsome, if_pos (by simp)]
      rw [List.map_cons, List.map_cons, ih]
      rfl

/-- The dedup triples of one trend's freshly created drafts are
pairwise distinct. -/
theorem trendDrafts_triples_nodup (gen : Nat → Platform → ContentAngle → Option ParsedContent)
    (s : ScoredTrendRec) : ((trendDrafts gen s).map draftTriple).Nodup := by
  rw [trendDrafts, trendDrafts_map_triple]
  refine List.Nodup.map ?_ (List.Nodup.filter _ (pairs_nodup _ (select_angles_nodup s)))
  intro x y hxy
  have h2 : x.2 = y.2 := congrArg (fun t => t.2.1) hxy
  have h1 : x.1 = y.1 := congrArg (fun t => t.2.2) hxy
  exact Prod.ext h1 h2

/-- Every draft created for a trend carries that trend's score id. -/
theorem mem_trendDrafts_id (gen : Nat → Platform → ContentAngle → Option ParsedContent)
    (s : ScoredTrendRec) {d : ContentDraft} (h : d ∈ trendDrafts gen s) :
    d.scored_trend_id = s.id := by
  rw [trendDrafts] at h
  obtain ⟨ap, _, hap⟩ := List.mem_filterMap.mp h
  rw [_generate_single_draft] at hap
  cases hg : gen s.id ap.2 ap.1 with
  | none => rw [hg] at hap; cases hap
  | some pc =>
    rw [hg] at hap
    injection hap with h'
    rw [← h']

/-- Inserting into the descending-relevance order is a permutation. -/
theorem insertByRelevanceDesc_perm (s : ScoredTrendRec) :
    ∀ l, List.Perm (insertByRelevanceDesc s l) (s :: l) := by
  intro l
  induction l with
  | nil => rfl
  | cons t ts ih =>
    rw [insertByRelevanceDesc]
    by_cases h : t.relevance_score ≥ s.relevance_score
    · rw [if_pos h]
      exact (ih.cons t).trans (List.Perm.swap s t ts)
    · rw [if_neg h]

/-- Sorting by `ORDER BY relevance_score DESC` permutes the selected rows. -/
theorem sortByRelevanceDesc_perm :
    ∀ l, List.Perm (sortByRelevanceDesc l) l := by
  intro l
  induction l with
  | nil => rfl
  | cons s ss ih =>
    rw [sortByRelevanceDesc]
    exact (insertByRelevanceDesc_perm s _).trans (ih.cons s)

/-- A selected trend passed the filter and had no draft at query time. -/
theorem mem_selectTopTrends {scored : List ScoredTrendRec} {limit : Nat}
    {db : List ContentDraft} {s : ScoredTrendRec}
    (h : s ∈ selectTopTrends scored limit db) :
    s ∈ scored ∧ s.passed_filter = true ∧ hasDraft db s = false := by
  rw [selectTopTrends] at h
  have h1 := (List.take_sublist _ _).subset h
  have h2 := (sortByRelevanceDesc_perm _).subset h1
  obtain ⟨hmem, hpred⟩ := List.mem_filter.mp h2
  obtain ⟨hp, hnd⟩ := Bool.and_eq_true_iff.mp hpred
  exact ⟨hmem, hp, by simpa using hnd⟩

/-- Distinct score ids survive selection. -/
theorem selectTopTrends_ids_nodup (scored : List ScoredTrendRec) (limit : Nat)
    (db : List ContentDraft) (hids : (scored.map (fun s => s.id)).Nodup) :
    ((selectTopTrends scored limit db).map (fun s => s.id)).Nodup := by
  have h1 : ((scored.filter (fun s => s.passed_filter && !hasDraft db s)).map
      (fun s => s.id)).Nodup :=
    List.Nodup.sublist ((List.filter_sublist _).map _) hids
  have h2 : ((sortByRelevanceDesc (scored.filter
      (fun s => s.passed_filter && !hasDraft db s))).map (fun s => s.id)).Nodup :=
    ((sortByRelevanceDesc_perm _).map _).symm.nodup h1
  exact List.Nodup.sublist ((List.take_sublist _ _).map _) h2

/-- Invariant of the batch loop: starting from a database with distinct
dedup triples, processing trends with distinct ids none of which owns a
draft yet keeps the triples distinct. -/
theorem gen_foldl_nodup (gen : Nat → Platform → ContentAngle → Option ParsedContent) :
    ∀ (sel : List ScoredTrendRec) (db : List ContentDraft) (c : Nat),
      (db.map draftTriple).Nodup →
      ((sel.map (fun s => s.id)).Nodup) →
      (∀ s ∈ sel, hasDraft db s = false) →
      (((sel.foldl (fun acc s =>
          let r := generate_content_for_trend gen s acc.1
          (r.1, acc.2 + r.2)) (db, c)).1).map draftTriple).Nodup := by
  intro sel
  induction sel with
  | nil => intro db c h1 _ _; exact h1
  | cons s sel ih =>
    intro db c h1 h2 h3
    rw [List.map_cons] at h2
    obtain ⟨hs_notmem, h2'⟩ := List.nodup_cons.mp h2
    have hinit : (let r := generate_content_for_trend gen s (db, c).1
        (r.1, (db, c).2 + r.2)) =
        (db ++ trendDrafts gen s, c + (trendDrafts gen s).length) := by
      simp only [generate_content_for_trend_eq]
    rw [List.foldl_cons, hinit]
    have hnodraft : ∀ d ∈ db, d.scored_trend_id ≠ s.id := by
      intro d hd
      have h4 := h3 s (List.mem_cons_self s sel)
      rw [hasDraft] at h4
      have h5 := List.any_eq_false.mp h4 d hd
      simpa using h5
    apply ih
    · rw [List.map_append, List.nodup_append]
      refine ⟨h1, trendDrafts_triples_nodup gen s, ?_⟩
      intro t ht1 ht2
      obtain ⟨d1, hd1, hdt1⟩ := List.mem_map.mp ht1
      obtain ⟨d2, hd2, hdt2⟩ := List.mem_map.mp ht2
      have e2 : d2.scored_trend_id = s.id := mem_trendDrafts_id gen s hd2
      have e1 : d1.scored_trend_id = s.id := by
        have h6 : d1.scored_trend_id = t.1 := by rw [← hdt1]; rfl
        have h7 : d2.scored_trend_id = t.1 := by rw [← hdt2]; rfl
        rw [h6, ← h7, e2]
      exact hnodraft d1 hd1 e1
    · exact h2'
    · intro s' hs'
      have hneq : s'.id ≠ s.id := by
        intro he
        apply hs_notmem
        rw [← he]
        exact List.mem_map_of_mem _ hs'
      have ha := h3 s' (List.mem_cons_of_mem _ hs')
      rw [hasDraft] at ha
      rw [hasDraft, List.any_append, ha]
      have hb : (trendDrafts gen s).any (fun d => d.scored_trend_id == s'.id) = false := by
        rw [List.any_eq_false]
        intro d hd
        have e := mem_trendDrafts_id gen s hd
        rw [e]
        simpa using Ne.symm hneq
      rw [hb]
      rfl

/-- When every eligible trend already owns a draft, the selection is
empty and a generation cycle is a no-op returning count 0. -/
theorem generation_noop_when_processed
    (gen : Nat → Platform → ContentAngle → Option ParsedContent)
    (scored : List ScoredTrendRec) (limit : Nat) (db : List ContentDraft)
    (h : ∀ s ∈ scored, s.passed_filter = true → hasDraft db s = true) :
    generate_content_for_top_trends gen scored limit db = (db, 0) := by
  have hfilter : scored.filter (fun s => s.passed_filter && !hasDraft db s) = [] := by
    rw [List.filter_eq_nil_iff]
    intro s hs
    by_cases hp : s.passed_filter = true
    · simp [hp, h s hs hp]
    · simp only [Bool.not_eq_true] at hp
      simp [hp]
  rw [generate_content_for_top_trends, selectTopTrends, hfilter]
  have hsort : sortByRelevanceDesc [] = [] := rfl
  rw [hsort, List.take_nil]
  rfl

/-- C1: the Generation Orchestrator never produces two drafts with the
same (score id, platform, angle) triple — a run over distinct scored
trends preserves triple distinctness of the draft table — and a second
cycle over the same already-processed eligible trend set (every
eligible trend now owns a draft) creates zero additional drafts, so the
draft count after two runs equals the count after one. -/
theorem orchestrator_unique_triples_and_idempotent
    (gen : Nat → Platform → ContentAngle → Option ParsedContent)
    (scored : List ScoredTrendRec) (limit : Nat) (db : List ContentDraft)
    (hids : (scored.map (fun s => s.id)).Nodup)
    (hdb : (db.map draftTriple).Nodup) :
    (((generate_content_for_top_trends gen scored limit db).1.map draftTriple).Nodup) ∧
    ((∀ s ∈ scored, s.passed_filter = true →
        hasDraft (generate_content_for_top_trends gen scored limit db).1 s = true) →
      generate_content_for_top_trends gen scored limit
          (generate_content_for_top_trends gen scored limit db).1 =
        ((generate_content_for_top_trends gen scored limit db).1, 0)) := by
  constructor
  · rw [generate_content_for_top_trends]
    apply gen_foldl_nodup
    · exact hdb
    · exact selectTopTrends_ids_nodup scored limit db hids
    · intro s hs
      exact (mem_selectTopTrends hs).2.2
  · intro h
    exact generation_noop_when_processed gen scored limit _ h

/-- Witness for C1 on a concrete batch starting from an empty draft
table: the produced triples are distinct and the second cycle adds
nothing. -/
theorem orchestrator_unique_triples_and_idempotent_witness :
    (((generate_content_for_top_trends sampleGen sampleScored 5 []).1.map
        draftTriple).Nodup) ∧
    (generate_content_for_top_trends sampleGen sampleScored 5
        (generate_content_for_top_trends sampleGen sampleScored 5 []).1 =
      ((generate_content_for_top_trends sampleGen sampleScored 5 []).1, 0)) :=
  ⟨(orchestrator_unique_triples_and_idempotent sampleGen sampleScored 5 []
      (by decide) (by decide)).1,
   (orchestrator_unique_triples_and_idempotent sampleGen sampleScored 5 []
      (by decide) (by decide)).2 (by decide)⟩

/-- C4: re-submitting a record whose (source, external id) key — the
`source_id` column — already has a persisted row is a no-op: the row
list comes back unchanged (no new item, existing items untouched, count
unchanged) and the duplicate is reported as the skip outcome; no error
channel exists on this path. -/
theorem ingest_duplicate_is_noop (now cutoff : Nat) (db : List Trend) (e : FeedEntry)
    (hfresh : ¬ e.published_parsed.getD now < cutoff)
    (hdup : db.any (fun t => t.source_id == googleNewsSourceId e) = true) :
    processEntry now cutoff db e = (db, .skippedDuplicate) := by
  simp [processEntry, hfresh, hdup]

/-- Witness for C4 at a concrete duplicate record. -/
theorem ingest_duplicate_is_noop_witness :
    processEntry 100 50 [sampleTrend] sampleEntry =
      ([sampleTrend], .skippedDuplicate) :=
  ingest_duplicate_is_noop 100 50 [sampleTrend] sampleEntry (by decide) (by decide)

end UEContent

